import Mathlib

/-!
# Verification of the wifiscanner output-parsing layer

Shallow embedding of `src/sys/macos.rs` of the `wifiscanner` repository:
the tabular parser `parse_airport` and the structured (JSON) parser
`parse_systemprofiler`, with the field-normalization helpers they use.

Rust strings are modelled as `List Char`; all inputs relevant to the claims
are ASCII, where Rust's byte offsets coincide with character offsets, so
`str::find`, slicing `&s[a..b]`, `str::trim`, `str::lines`,
`str::strip_prefix` and `str::split` are modelled position-for-position on
character lists.  A Rust panic (out-of-bounds slice) is modelled as an
explicit outcome, distinct from an `Err` return.
-/

set_option autoImplicit false

namespace Wifiscanner

/-- Rust `&str` / `String`, modelled as a list of characters. -/
abbrev Str := List Char

/-- Character list of a Lean string literal (used to write Rust string
literals in the embedding). -/
def str (s : String) : Str := s.data

/-- The `Wifi` record produced by every parser of the crate (the spec's
`NetworkRecord`).  The struct itself lives in the crate root; its five
fields are exactly the ones constructed and consumed in
`src/sys/macos.rs` and `src/bin/wifiscanner.rs`. -/
structure Wifi where
  mac : Option Str
  ssid : Str
  channel : Str
  signal_level : Str
  security : Str
deriving DecidableEq, Repr

/-! ## Rust string primitives used by the parsers -/

/-- Rust `str::trim` (ASCII whitespace; the inputs at issue contain only
spaces). -/
def trim (s : Str) : Str :=
  ((s.dropWhile Char.isWhitespace).reverse.dropWhile Char.isWhitespace).reverse

/-- Rust `str::find(pat)`: offset of the first occurrence of `pat` as a
substring, `none` when absent. -/
def findSub (pat : Str) : Str → Option Nat
  | [] => if pat = [] then some 0 else none
  | c :: cs =>
    if pat.isPrefixOf (c :: cs) then some 0
    else (findSub pat cs).map (· + 1)

/-- Rust slice `&s[a..b]`: `none` models the panic when `a > b` or
`b > s.len()`. -/
def slice (s : Str) (a b : Nat) : Option Str :=
  if a ≤ b ∧ b ≤ s.length then some ((s.drop a).take (b - a)) else none

/-- Rust slice `&s[a..]`: `none` models the panic when `a > s.len()`. -/
def sliceFrom (s : Str) (a : Nat) : Option Str :=
  if a ≤ s.length then some (s.drop a) else none

/-- Split a string at every `'\n'`; the result always has one more segment
than there are newlines. -/
def splitNl (s : Str) : List Str :=
  s.foldr
    (fun c acc =>
      if c = '\n' then [] :: acc
      else
        match acc with
        | [] => [[c]]
        | a :: rest => (c :: a) :: rest)
    [[]]

/-- Drop one trailing `'\r'` (the tail of a `"\r\n"` line ending). -/
def dropCr (l : Str) : Str :=
  if l.getLast? = some '\r' then l.dropLast else l

/-- Rust `str::lines`: split at `'\n'` or `"\r\n"`; a final line ending is
optional, and `""` has no lines at all. -/
def rlines (s : Str) : List Str :=
  let segs := splitNl s
  let body := segs.dropLast.map dropCr
  match segs.getLast? with
  | some [] => body
  | some l => body ++ [l]
  | none => body

/-! ## Tabular parser (`parse_airport`) -/

/-- The five header-derived column offsets of `parse_airport`
(`col_mac`, `col_rrsi`, `col_channel`, `col_ht`, `col_security`). -/
structure Cols where
  col_mac : Nat
  col_rrsi : Nat
  col_channel : Nat
  col_ht : Nat
  col_security : Nat
deriving DecidableEq, Repr

/-- Outcome of `parse_airport`.  `headerNotFound` carries the
`anyhow::Context` message attached to the failing header lookup;
`panicked` models a Rust panic (out-of-bounds string slice), which is not
a returned `Err`. -/
inductive AirportResult where
  | ok (wifis : List Wifi)
  | headerNotFound (msg : Str)
  | panicked
deriving DecidableEq, Repr

/-- The context string attached to a failed header lookup.  It is a plain
string literal in the source — `Option::context`, unlike `format!`, does
not interpolate `\x7bheader:?\x7d` — so the message is the same for every
missing marker. -/
def headerErrMsg : Str := str "HeaderNotFound in \x7bheader:?\x7d"

/-- Locate the five column markers in the header line, in the fixed order
`BSSID, RSSI, CHANNEL, HT, SECURITY`; the first missing marker aborts with
the (constant) context message, as `collect::<anyhow::Result<Vec<_>>>`
does. -/
def findMarkers (headers : Str) : Except Str Cols :=
  match findSub (str "BSSID") headers with
  | none => .error headerErrMsg
  | some cm =>
    match findSub (str "RSSI") headers with
    | none => .error headerErrMsg
    | some cr =>
      match findSub (str "CHANNEL") headers with
      | none => .error headerErrMsg
      | some cc =>
        match findSub (str "HT") headers with
        | none => .error headerErrMsg
        | some ch =>
          match findSub (str "SECURITY") headers with
          | none => .error headerErrMsg
          | some cs => .ok ⟨cm, cr, cc, ch, cs⟩

/-- The loop body of `parse_airport` for one data line: five slices at the
header-derived offsets, each trimmed; `none` models the panic of an
out-of-bounds slice. -/
def parseRow (k : Cols) (line : Str) : Option Wifi := do
  let ssid ← slice line 0 k.col_mac
  let mac ← slice line k.col_mac k.col_rrsi
  let signal_level ← slice line k.col_rrsi k.col_channel
  let channel ← slice line k.col_channel k.col_ht
  let security ← sliceFrom line k.col_security
  pure
    { mac := some (trim mac)
    , ssid := trim ssid
    , channel := trim channel
    , signal_level := trim signal_level
    , security := trim security }

/-- The `for line in lines` loop of `parse_airport`: a panic anywhere
loses the whole result. -/
def parseRows (k : Cols) : List Str → Option (List Wifi)
  | [] => some []
  | l :: ls => do
    let w ← parseRow k l
    let ws ← parseRows k ls
    pure (w :: ws)

/-- Function `parse_airport` from `src/sys/macos.rs`: empty input is `Ok(vec![])`;
otherwise locate the five markers in the first line and slice every
remaining line at those offsets. -/
def parse_airport (network_list : Str) : AirportResult :=
  match rlines network_list with
  | [] => .ok []
  | headers :: rest =>
    match findMarkers headers with
    | .error msg => .headerNotFound msg
    | .ok k =>
      match parseRows k rest with
      | none => .panicked
      | some wifis => .ok wifis

/-! ## Structured parser (`parse_systemprofiler`)

The JSON text has already been lexed into a document tree; the embedding
models `serde_json::from_str` from that tree with the semantics of the
derived `Deserialize` impls: unknown object keys are ignored (no
`deny_unknown_fields`), a duplicated known key is a `duplicate field`
error, a missing non-`Option` field is an error, a missing (or `null`)
`Option` field is `None`. -/

/-- A JSON document tree. -/
inductive Json where
  | null
  | jbool (b : Bool)
  | jnum (n : Int)
  | jstr (s : Str)
  | jarr (elems : List Json)
  | jobj (fields : List (Str × Json))

/-- All values bound to `key` in an object's field list, in document
order. -/
def lookups (key : Str) (fs : List (Str × Json)) : List Json :=
  (fs.filter (fun p => p.1 = key)).map (fun p => p.2)

/-- A required struct field: exactly one occurrence of the key, else a
deserialization error (`missing field` / `duplicate field`). -/
def getReq (key : Str) (fs : List (Str × Json)) : Option Json :=
  match lookups key fs with
  | [v] => some v
  | _ => none

/-- An `Option` struct field: absent means `None`, one occurrence is kept,
a duplicate is an error. -/
def getOpt (key : Str) (fs : List (Str × Json)) : Option (Option Json) :=
  match lookups key fs with
  | [] => some none
  | [v] => some v
  | _ => none

/-- Deserialize a JSON value as a string. -/
def asStr : Json → Option Str
  | .jstr s => some s
  | _ => none

/-- Deserialize every element of a JSON array in sequence; the first
failing element fails the whole array. -/
def mapDeser {α : Type} (f : Json → Option α) : List Json → Option (List α)
  | [] => some []
  | x :: xs => do
    let a ← f x
    let as ← mapDeser f xs
    pure (a :: as)

/-- Deserialize a JSON value as an array with element deserializer `f`. -/
def asArr {α : Type} (f : Json → Option α) : Json → Option (List α)
  | .jarr xs => mapDeser f xs
  | _ => none

/-- Rust `struct WifiPoint` of `parse_systemprofiler`: four required string
fields (`_name`, channel, security mode, signal/noise). -/
structure WifiPoint where
  _name : Str
  spairport_network_channel : Str
  spairport_security_mode : Str
  spairport_signal_noise : Str
deriving DecidableEq, Repr

/-- Rust `struct Interface`: a single `Option<Vec<WifiPoint>>` field. -/
structure Interface where
  spairport_airport_other_local_wireless_networks : Option (List WifiPoint)
deriving DecidableEq, Repr

/-- Rust `struct Interfaces`: a required `Vec<Interface>` field. -/
structure Interfaces where
  spairport_airport_interfaces : List Interface
deriving DecidableEq, Repr

/-- Rust `struct SystemProfilerData`: the required top-level
`SPAirPortDataType` list. -/
structure SystemProfilerData where
  SPAirPortDataType : List Interfaces
deriving DecidableEq, Repr

/-- Derived `Deserialize` for `WifiPoint`. -/
def deserWifiPoint : Json → Option WifiPoint
  | .jobj fs => do
    let n ← getReq (str "_name") fs >>= asStr
    let ch ← getReq (str "spairport_network_channel") fs >>= asStr
    let sec ← getReq (str "spairport_security_mode") fs >>= asStr
    let sn ← getReq (str "spairport_signal_noise") fs >>= asStr
    pure ⟨n, ch, sec, sn⟩
  | _ => none

/-- Deserialize an `Option<Vec<α>>` field value: `null` is `None`. -/
def deserOptVec {α : Type} (f : Json → Option α) :
    Option Json → Option (Option (List α))
  | none => some none
  | some .null => some none
  | some j => (asArr f j).map some

/-- Derived `Deserialize` for `Interface`. -/
def deserInterface : Json → Option Interface
  | .jobj fs => do
    let v ← getOpt (str "spairport_airport_other_local_wireless_networks") fs
    let nets ← deserOptVec deserWifiPoint v
    pure ⟨nets⟩
  | _ => none

/-- Derived `Deserialize` for `Interfaces`. -/
def deserInterfaces : Json → Option Interfaces
  | .jobj fs => do
    let v ← getReq (str "spairport_airport_interfaces") fs
    let l ← asArr deserInterface v
    pure ⟨l⟩
  | _ => none

/-- Derived `Deserialize` for `SystemProfilerData`. -/
def deserTop : Json → Option SystemProfilerData
  | .jobj fs => do
    let v ← getReq (str "SPAirPortDataType") fs
    let l ← asArr deserInterfaces v
    pure ⟨l⟩
  | _ => none

/-! Field normalization used inside the network loop. -/

/-- Rust `security.strip_prefix("spairport_security_mode_").unwrap_or(&security)`:
strip the fixed security-mode marker when present, else keep the value. -/
def stripSecMode (s : Str) : Str :=
  if (str "spairport_security_mode_").isPrefixOf s then
    s.drop (str "spairport_security_mode_").length
  else s

/-- Rust `spairport_signal_noise.split('/').nth(0).unwrap_or("").trim()`: the
first `'/'`-separated segment, trimmed (a split always has a first
segment, so the `unwrap_or` default is dead). -/
def signalOf (s : Str) : Str :=
  trim (s.takeWhile (fun c => c ≠ '/'))

/-- Build one `Wifi` record from one network entry, exactly as the inner
loop body of `parse_systemprofiler` does. -/
def wifiOfPoint (w : WifiPoint) : Wifi :=
  { mac := none
  , ssid := w._name
  , channel := w.spairport_network_channel
  , security := stripSecMode w.spairport_security_mode
  , signal_level := signalOf w.spairport_signal_noise }

/-- The inner `for wifi in ...unwrap_or(vec![])` loop: push one record per
network entry onto the accumulator. -/
def pushNets (nets : List WifiPoint) (acc : List Wifi) : List Wifi :=
  match nets with
  | [] => acc
  | w :: rest => pushNets rest (acc ++ [wifiOfPoint w])

/-- The outer `for interface in ...` loop over the flattened interface
list. -/
def pushIfaces (ifs : List Interface) (acc : List Wifi) : List Wifi :=
  match ifs with
  | [] => acc
  | i :: rest =>
    pushIfaces rest
      (pushNets (i.spairport_airport_other_local_wireless_networks.getD []) acc)

/-- All interface entries of a deserialized document, in document order
(the `map ... flatten` of the source). -/
def allIfaces (d : SystemProfilerData) : List Interface :=
  (d.SPAirPortDataType.map (fun x => x.spairport_airport_interfaces)).flatten

/-- Function `parse_systemprofiler` from `src/sys/macos.rs`, on an already-lexed
document tree: deserialize the schema, then collect one record per
network entry; `none` models the `serde_json` error return. -/
def parse_systemprofiler (j : Json) : Option (List Wifi) := do
  let data ← deserTop j
  pure (pushIfaces (allIfaces data) [])

/-- The network entries of a deserialized document in document order
(interfaces in order, then each interface's networks in order), stated
independently of the record-building loop. -/
def netEntries (d : SystemProfilerData) : List WifiPoint :=
  (allIfaces d).flatMap
    (fun i => i.spairport_airport_other_local_wireless_networks.getD [])

/-! ## Concrete inputs used by the claims -/

/-- The header line of the spec's end-to-end tabular example (also the
header of the repository's `airport01.txt` fixture). -/
def hdrC3 : Str :=
  str "SSID                     BSSID              RSSI CHANNEL HT SECURITY"

/-- The data line of the spec's end-to-end tabular example. -/
def datC3 : Str :=
  str "OurTest                  00:35:1a:90:56:03  -70  112     Y  WPA2(PSK/AES/AES)"

/-- The record the example line must produce. -/
def wifiC3 : Wifi :=
  { mac := some (str "00:35:1a:90:56:03")
  , ssid := str "OurTest"
  , channel := str "112"
  , signal_level := str "-70"
  , security := str "WPA2(PSK/AES/AES)" }

/-- A header line missing only the `BSSID` marker. -/
def hdrNoBssid : Str := str "SSID       RSSI CHANNEL HT SECURITY"

/-- A header line missing only the `RSSI` marker. -/
def hdrNoRssi : Str := str "SSID       BSSID CHANNEL HT SECURITY"

/-! ## Loop-unrolling lemmas -/

theorem pushNets_eq (nets : List WifiPoint) (acc : List Wifi) :
    pushNets nets acc = acc ++ nets.map wifiOfPoint := by
  induction nets generalizing acc with
  | nil => simp [pushNets]
  | cons w rest ih => simp [pushNets, ih]

theorem pushIfaces_eq (ifs : List Interface) (acc : List Wifi) :
    pushIfaces ifs acc =
      acc ++ ifs.flatMap
        (fun i =>
          (i.spairport_airport_other_local_wireless_networks.getD []).map
            wifiOfPoint) := by
  induction ifs generalizing acc with
  | nil => simp [pushIfaces]
  | cons i rest ih => simp [pushIfaces, ih, pushNets_eq]

theorem parseRows_forall₂ (k : Cols) (ls : List Str) (ws : List Wifi)
    (h : parseRows k ls = some ws) :
    List.Forall₂ (fun line w => parseRow k line = some w) ls ws := by
  induction ls generalizing ws with
  | nil =>
    simp only [parseRows, Option.some.injEq] at h
    subst h
    exact .nil
  | cons l rest ih =>
    have h' : (parseRow k l).bind
        (fun w => (parseRows k rest).bind (fun ws' => some (w :: ws'))) =
        some ws := h
    obtain ⟨w, hw, hrest⟩ := Option.bind_eq_some.mp h'
    obtain ⟨ws', hws', heq⟩ := Option.bind_eq_some.mp hrest
    cases heq
    exact .cons hw (ih ws' hws')

/-! ## Claims about the tabular parser -/

/-- Claim C1.  On a tabular input whose header contains all five markers
but whose data line is shorter than the derived offsets, the code does
not return a `RowTooShort` error: the out-of-bounds slice
`&line[..col_mac]` panics, so the parse neither succeeds nor returns an
error value.  The marker discovery itself succeeds. -/
theorem C1_short_row_panics :
    findMarkers hdrC3 = .ok ⟨25, 44, 49, 57, 60⟩ ∧
    parse_airport (hdrC3 ++ str "\n" ++ str "x") = .panicked :=
  ⟨rfl, rfl⟩

/-- Claim C2.  A header missing a marker does yield a header-lookup error
with zero records, but the attached message is the fixed literal
`headerErrMsg` whichever marker is missing — `Option::context` does not
interpolate the `\x7bheader:?\x7d` placeholder — so the error does not
identify the missing marker: inputs missing `BSSID` and missing `RSSI`
produce identical results. -/
theorem C2_error_does_not_name_marker :
    parse_airport (hdrNoBssid ++ str "\n" ++ str "x") =
      .headerNotFound headerErrMsg ∧
    parse_airport (hdrNoRssi ++ str "\n" ++ str "x") =
      .headerNotFound headerErrMsg := by
  decide

/-- Claim C3: on the spec's two-line example input the tabular parser
succeeds with exactly the one expected record. -/
theorem C3_example_parse :
    parse_airport (hdrC3 ++ str "\n" ++ datC3) = .ok [wifiC3] := by
  decide

/-- Claim C8: the empty tabular input has no lines at all, and the parser
returns success with an empty record list. -/
theorem C8_empty_input_ok :
    rlines (str "") = [] ∧ parse_airport (str "") = .ok [] := by
  decide

/-- Claim C5: whenever the tabular parser succeeds on an input with a
header line, it returns exactly one record per data line — the record
list and the data-line list have the same length and correspond
pointwise, in input order, each record being the sliced row of its
line. -/
theorem C5_one_record_per_line (s headers : Str) (rest : List Str)
    (ws : List Wifi) (hp : parse_airport s = .ok ws)
    (hl : rlines s = headers :: rest) :
    ws.length = rest.length ∧
    ∃ k, findMarkers headers = .ok k ∧
      List.Forall₂ (fun line w => parseRow k line = some w) rest ws := by
  unfold parse_airport at hp
  rw [hl] at hp
  have hp' : (match findMarkers headers with
      | .error msg => AirportResult.headerNotFound msg
      | .ok k =>
        match parseRows k rest with
        | none => AirportResult.panicked
        | some wifis => AirportResult.ok wifis) = .ok ws := hp
  cases hk : findMarkers headers with
  | error m => rw [hk] at hp'; cases hp'
  | ok k =>
    rw [hk] at hp'
    have hp'' : (match parseRows k rest with
        | none => AirportResult.panicked
        | some wifis => AirportResult.ok wifis) = .ok ws := hp'
    cases hr : parseRows k rest with
    | none => rw [hr] at hp''; cases hp''
    | some ws' =>
      rw [hr] at hp''
      cases hp''
      have hf := parseRows_forall₂ k rest _ hr
      exact ⟨hf.length_eq.symm, k, rfl, hf⟩

/-- Closed instance of the C5 theorem on the spec's example input. -/
theorem C5_one_record_per_line_witness :
    (1 : Nat) = 1 ∧
    ∃ k, findMarkers hdrC3 = .ok k ∧
      List.Forall₂ (fun line w => parseRow k line = some w) [datC3] [wifiC3] :=
  C5_one_record_per_line (hdrC3 ++ str "\n" ++ datC3) hdrC3 [datC3] [wifiC3]
    (by decide) (by decide)

/-! ## Claims about the normalization helpers -/

theorem isPrefixOf_append_self (p s : Str) : p.isPrefixOf (p ++ s) := by
  induction p with
  | nil => cases s <;> rfl
  | cons c cs ih => simp [List.isPrefixOf, ih]

/-- Claim C6, as stated, is false: security-prefix stripping is not
idempotent on every input string, because stripping can expose a second
copy of the marker. -/
theorem C6_counterexample :
    stripSecMode
        (stripSecMode
          (str "spairport_security_mode_spairport_security_mode_wpa")) ≠
      stripSecMode
        (str "spairport_security_mode_spairport_security_mode_wpa") := by
  decide

/-- Claim C6 (amended): the function strips the fixed marker when the
value starts with it and otherwise returns the value unchanged (never an
error); on any value that does not start with the marker it is the
identity, so applying it twice equals applying it once on such values
(but not on every string). -/
theorem C6_strip_behaviour (s : Str) :
    stripSecMode (str "spairport_security_mode_" ++ s) = s ∧
    (¬ (str "spairport_security_mode_").isPrefixOf s →
      stripSecMode s = s ∧
      stripSecMode (stripSecMode s) = stripSecMode s) := by
  refine ⟨?_, fun h => ?_⟩
  · rw [stripSecMode, if_pos (isPrefixOf_append_self _ s)]
    exact List.drop_left _ s
  · have hs : stripSecMode s = s := by rw [stripSecMode, if_neg h]
    exact ⟨hs, by rw [hs, hs]⟩

/-- Closed instance of the amended C6 theorem at the already-stripped
value `"wpa2_personal"`. -/
theorem C6_strip_behaviour_witness :
    stripSecMode (str "spairport_security_mode_" ++ str "wpa2_personal") =
      str "wpa2_personal" ∧
    (stripSecMode (str "wpa2_personal") = str "wpa2_personal" ∧
      stripSecMode (stripSecMode (str "wpa2_personal")) =
        stripSecMode (str "wpa2_personal")) :=
  ⟨(C6_strip_behaviour (str "wpa2_personal")).1,
   (C6_strip_behaviour (str "wpa2_personal")).2 (by decide)⟩

/-- Claim C7: signal extraction takes the first slash-separated segment
trimmed — on the composite value of minus 67 and minus 90 it yields
`"-67"` — and on any input without the separator it yields the trimmed
input, never an error. -/
theorem C7_signal_first_segment :
    signalOf (str "-67/-90") = str "-67" ∧
    ∀ s : Str, '/' ∉ s → signalOf s = trim s := by
  refine ⟨by decide, fun s h => ?_⟩
  unfold signalOf
  congr 1
  induction s with
  | nil => rfl
  | cons c cs ih =>
    have hc : c ≠ '/' := fun e => h (e ▸ List.mem_cons_self c cs)
    have hcs : '/' ∉ cs := fun e => h (List.mem_cons_of_mem c e)
    simp [List.takeWhile, hc, ih hcs]
    exact fun x hx e => hcs (e ▸ hx)

/-- Closed instance of the C7 theorem at the separator-free input
`"-67"`. -/
theorem C7_signal_first_segment_witness :
    signalOf (str "-67") = trim (str "-67") :=
  C7_signal_first_segment.2 (str "-67") (by decide)

/-! ## Claims about the structured parser -/

/-- A network entry object with the four required keys bound to string
values. -/
def pointJson (n ch sec sn : String) : Json :=
  .jobj
    [ (str "_name", .jstr (str n))
    , (str "spairport_network_channel", .jstr (str ch))
    , (str "spairport_security_mode", .jstr (str sec))
    , (str "spairport_signal_noise", .jstr (str sn)) ]

/-- The spec's end-to-end structured example: one interface carrying one
network, next to an interface without the optional network list. -/
def doc1 : Json :=
  .jobj
    [ (str "SPAirPortDataType", .jarr
        [ .jobj
            [ (str "spairport_airport_interfaces", .jarr
                [ .jobj
                    [ (str "spairport_airport_other_local_wireless_networks",
                        .jarr
                          [ pointJson "TEST-Wifi" "1"
                              "spairport_security_mode_wpa2_personal"
                              "-67 / -90" ]) ]
                , .jobj [] ]) ] ]) ]

/-- The record list `doc1` parses to. -/
def doc1Wifis : List Wifi :=
  [ { mac := none
    , ssid := str "TEST-Wifi"
    , channel := str "1"
    , signal_level := str "-67"
    , security := str "wpa2_personal" } ]

/-- Claim C4: whenever the structured parser succeeds, it returns exactly
one record per network entry of the deserialized document, in document
order (interfaces in order, networks within an interface in order), and
every record has `mac = none`. -/
theorem C4_one_record_per_entry (j : Json) (ws : List Wifi)
    (h : parse_systemprofiler j = some ws) :
    ∃ d, deserTop j = some d ∧
      ws = (netEntries d).map wifiOfPoint ∧
      ∀ w ∈ ws, w.mac = none := by
  have h' : (deserTop j).bind
      (fun data => some (pushIfaces (allIfaces data) [])) = some ws := h
  obtain ⟨d, hd, hws⟩ := Option.bind_eq_some.mp h'
  cases hws
  refine ⟨d, hd, ?_, ?_⟩
  · rw [pushIfaces_eq, netEntries, List.map_flatMap, List.nil_append]
  · intro w hw
    rw [pushIfaces_eq, List.nil_append] at hw
    obtain ⟨i, _, hwi⟩ := List.mem_flatMap.mp hw
    obtain ⟨p, _, rfl⟩ := List.mem_map.mp hwi
    rfl

/-- Closed instance of the C4 theorem on the spec's structured
example. -/
theorem C4_one_record_per_entry_witness :
    ∃ d, deserTop doc1 = some d ∧
      doc1Wifis = (netEntries d).map wifiOfPoint ∧
      ∀ w ∈ doc1Wifis, w.mac = none :=
  C4_one_record_per_entry doc1 doc1Wifis (by rfl)

/-- Claim C9: an interface object lacking the optional network-list key
deserializes successfully to an interface with no networks, and a
well-formed document in which every interface lacks the list parses
successfully to the empty record list. -/
theorem C9_absent_networks_ok :
    (∀ fs : List (Str × Json),
      lookups (str "spairport_airport_other_local_wireless_networks") fs =
        [] →
      deserInterface (.jobj fs) = some ⟨none⟩) ∧
    (∀ (j : Json) (d : SystemProfilerData), deserTop j = some d →
      (∀ i ∈ allIfaces d,
        i.spairport_airport_other_local_wireless_networks = none) →
      parse_systemprofiler j = some []) := by
  constructor
  · intro fs hfs
    have h1 : deserInterface (.jobj fs) =
        (getOpt (str "spairport_airport_other_local_wireless_networks")
            fs).bind
          (fun v => (deserOptVec deserWifiPoint v).bind
            (fun nets => some ⟨nets⟩)) := rfl
    have h2 : getOpt (str "spairport_airport_other_local_wireless_networks")
        fs = some none := by
      unfold getOpt
      rw [hfs]
    rw [h1, h2]
    rfl
  · intro j d hd hnone
    have h' : parse_systemprofiler j = (deserTop j).bind
        (fun data => some (pushIfaces (allIfaces data) [])) := rfl
    rw [h', hd]
    show some (pushIfaces (allIfaces d) []) = some []
    have hz : (allIfaces d).flatMap
        (fun i =>
          (i.spairport_airport_other_local_wireless_networks.getD []).map
            wifiOfPoint) = [] := by
      rw [List.flatMap_eq_nil_iff]
      intro i hi
      rw [hnone i hi]
      rfl
    rw [pushIfaces_eq, List.nil_append, hz]

/-- A document of one interface list holding two interfaces, both lacking
the optional network list. -/
def doc2 : Json :=
  .jobj
    [ (str "SPAirPortDataType", .jarr
        [ .jobj
            [ (str "spairport_airport_interfaces", .jarr
                [ .jobj [], .jobj [(str "junk", .jnum 3)] ]) ] ]) ]

/-- What `doc2` deserializes to: two interfaces, no network lists. -/
def doc2Data : SystemProfilerData := ⟨[⟨[⟨none⟩, ⟨none⟩]⟩]⟩

/-- Closed instance of the C9 theorem: the bare interface object and the
two-bare-interface document `doc2`. -/
theorem C9_absent_networks_ok_witness :
    deserInterface (.jobj []) = some ⟨none⟩ ∧
    parse_systemprofiler doc2 = some [] :=
  ⟨C9_absent_networks_ok.1 [] rfl,
   C9_absent_networks_ok.2 doc2 doc2Data rfl (by decide)⟩

/-! ## Claim C10: tolerance of unknown object keys

`ExtDoc j j'` relates a document to the same document with extra
unrecognized key/value pairs inserted into its objects, at every level of
the consumed schema; the claim is that deserialization does not see the
difference. -/

/-- Values kept from the original document are unchanged. -/
@[reducible] def keptEq (v v' : Json) : Prop := v' = v

/-- Relation `ExtFields recog vext fs fs'` holds when `fs'` is `fs` with extra
entries inserted whose keys lie outside `recog`, every original entry
keeping its key and relating its value by `vext`. -/
inductive ExtFields (recog : List Str) (vext : Str → Json → Json → Prop) :
    List (Str × Json) → List (Str × Json) → Prop where
  | nil : ExtFields recog vext [] []
  | keep {k v v' fs fs'} (hv : vext k v v')
      (h : ExtFields recog vext fs fs') :
      ExtFields recog vext ((k, v) :: fs) ((k, v') :: fs')
  | extra {k v fs fs'} (hk : k ∉ recog) (h : ExtFields recog vext fs fs') :
      ExtFields recog vext fs ((k, v) :: fs')

theorem lookups_rel {recog : List Str} {vext : Str → Json → Json → Prop}
    {fs fs' : List (Str × Json)} (h : ExtFields recog vext fs fs')
    {k : Str} (hk : k ∈ recog) :
    List.Forall₂ (vext k) (lookups k fs) (lookups k fs') := by
  induction h with
  | nil => exact .nil
  | @keep k' v v' fs1 fs1' hv htail ih =>
    by_cases hkk : k' = k
    · subst hkk
      simpa [lookups, List.filter_cons] using List.Forall₂.cons hv ih
    · simpa [lookups, List.filter_cons, hkk] using ih
  | @extra k' v fs1 fs1' hk' htail ih =>
    have hne : k' ≠ k := fun e => hk' (e ▸ hk)
    simpa [lookups, List.filter_cons, hne] using ih

theorem forall₂_keptEq {l l' : List Json} (h : List.Forall₂ keptEq l l') :
    l' = l := by
  induction h with
  | nil => rfl
  | @cons a b as bs hv htail ih => rw [show b = a from hv, ih]

/-- The four recognized keys of a network-entry object. -/
def pointKeys : List Str :=
  [ str "_name", str "spairport_network_channel"
  , str "spairport_security_mode", str "spairport_signal_noise" ]

/-- Extension of a network-entry object by unknown keys. -/
inductive ExtPoint : Json → Json → Prop where
  | obj {fs fs'} (h : ExtFields pointKeys (fun _ => keptEq) fs fs') :
      ExtPoint (.jobj fs) (.jobj fs')

/-- Extension of the optional networks value: `null` stays `null`, an
array extends pointwise. -/
inductive ExtNets : Json → Json → Prop where
  | null : ExtNets .null .null
  | arr {xs xs'} (h : List.Forall₂ ExtPoint xs xs') :
      ExtNets (.jarr xs) (.jarr xs')

/-- The one recognized key of an interface object. -/
def ifaceNetsKey : Str :=
  str "spairport_airport_other_local_wireless_networks"

def vextIface (k : Str) (v v' : Json) : Prop :=
  if k = ifaceNetsKey then ExtNets v v' else keptEq v v'

/-- Extension of an interface object by unknown keys. -/
inductive ExtIface : Json → Json → Prop where
  | obj {fs fs'} (h : ExtFields [ifaceNetsKey] vextIface fs fs') :
      ExtIface (.jobj fs) (.jobj fs')

/-- Pointwise extension of the interface array. -/
inductive ExtIfaceArr : Json → Json → Prop where
  | arr {xs xs'} (h : List.Forall₂ ExtIface xs xs') :
      ExtIfaceArr (.jarr xs) (.jarr xs')

/-- The one recognized key of the `Interfaces` wrapper object. -/
def ifsKey : Str := str "spairport_airport_interfaces"

def vextIfaces (k : Str) (v v' : Json) : Prop :=
  if k = ifsKey then ExtIfaceArr v v' else keptEq v v'

/-- Extension of an `Interfaces` wrapper object by unknown keys. -/
inductive ExtIfaces : Json → Json → Prop where
  | obj {fs fs'} (h : ExtFields [ifsKey] vextIfaces fs fs') :
      ExtIfaces (.jobj fs) (.jobj fs')

/-- Pointwise extension of the top-level data array. -/
inductive ExtIfacesArr : Json → Json → Prop where
  | arr {xs xs'} (h : List.Forall₂ ExtIfaces xs xs') :
      ExtIfacesArr (.jarr xs) (.jarr xs')

/-- The one recognized key of the top-level object. -/
def topKey : Str := str "SPAirPortDataType"

def vextTop (k : Str) (v v' : Json) : Prop :=
  if k = topKey then ExtIfacesArr v v' else keptEq v v'

/-- Extension of the whole document by unknown keys at any object of the
consumed schema. -/
inductive ExtDoc : Json → Json → Prop where
  | obj {fs fs'} (h : ExtFields [topKey] vextTop fs fs') :
      ExtDoc (.jobj fs) (.jobj fs')

theorem deserWifiPoint_ext {j j' : Json} (h : ExtPoint j j') :
    deserWifiPoint j' = deserWifiPoint j := by
  cases h with
  | @obj fs fs' hf =>
    have e1 := forall₂_keptEq (lookups_rel hf (k := str "_name")
      (by decide))
    have e2 := forall₂_keptEq
      (lookups_rel hf (k := str "spairport_network_channel") (by decide))
    have e3 := forall₂_keptEq
      (lookups_rel hf (k := str "spairport_security_mode") (by decide))
    have e4 := forall₂_keptEq
      (lookups_rel hf (k := str "spairport_signal_noise") (by decide))
    simp [deserWifiPoint, getReq, e1, e2, e3, e4]

theorem mapDeser_congr {α : Type} {f : Json → Option α}
    {R : Json → Json → Prop} (hR : ∀ a a', R a a' → f a' = f a)
    {xs xs' : List Json} (h : List.Forall₂ R xs xs') :
    mapDeser f xs' = mapDeser f xs := by
  induction h with
  | nil => rfl
  | cons hv _ ih => simp [mapDeser, hR _ _ hv, ih]

theorem deserOptVec_ext {v v' : Json} (h : ExtNets v v') :
    deserOptVec deserWifiPoint (some v') =
      deserOptVec deserWifiPoint (some v) := by
  cases h with
  | null => rfl
  | arr hf => simp [deserOptVec, asArr, mapDeser_congr (fun _ _ h => deserWifiPoint_ext h) hf]

theorem deserInterface_ext {j j' : Json} (h : ExtIface j j') :
    deserInterface j' = deserInterface j := by
  cases h with
  | @obj fs fs' hf =>
    have hrel := lookups_rel hf (k := ifaceNetsKey) (by decide)
    show (getOpt ifaceNetsKey fs').bind
        (fun v => (deserOptVec deserWifiPoint v).bind
          (fun nets => some (Interface.mk nets))) =
      (getOpt ifaceNetsKey fs).bind
        (fun v => (deserOptVec deserWifiPoint v).bind
          (fun nets => some (Interface.mk nets)))
    unfold getOpt
    revert hrel
    generalize lookups ifaceNetsKey fs = L
    generalize lookups ifaceNetsKey fs' = L'
    intro hrel
    cases hrel with
    | nil => rfl
    | @cons a a' as as' hv htail =>
      cases htail with
      | nil =>
        have hn : ExtNets a a' := by simpa [vextIface] using hv
        simp [deserOptVec_ext hn]
      | cons hv2 htail2 => rfl

theorem deserInterfaces_ext {j j' : Json} (h : ExtIfaces j j') :
    deserInterfaces j' = deserInterfaces j := by
  cases h with
  | @obj fs fs' hf =>
    have hrel := lookups_rel hf (k := ifsKey) (by decide)
    show (getReq ifsKey fs').bind
        (fun v => (asArr deserInterface v).bind
          (fun l => some (Interfaces.mk l))) =
      (getReq ifsKey fs).bind
        (fun v => (asArr deserInterface v).bind
          (fun l => some (Interfaces.mk l)))
    unfold getReq
    revert hrel
    generalize lookups ifsKey fs = L
    generalize lookups ifsKey fs' = L'
    intro hrel
    cases hrel with
    | nil => rfl
    | @cons a a' as as' hv htail =>
      cases htail with
      | nil =>
        have ha : ExtIfaceArr a a' := by simpa [vextIfaces] using hv
        cases ha with
        | arr hxs => simp [asArr, mapDeser_congr (fun _ _ h => deserInterface_ext h) hxs]
      | cons hv2 htail2 => rfl

theorem deserTop_ext {j j' : Json} (h : ExtDoc j j') :
    deserTop j' = deserTop j := by
  cases h with
  | @obj fs fs' hf =>
    have hrel := lookups_rel hf (k := topKey) (by decide)
    show (getReq topKey fs').bind
        (fun v => (asArr deserInterfaces v).bind
          (fun l => some (SystemProfilerData.mk l))) =
      (getReq topKey fs).bind
        (fun v => (asArr deserInterfaces v).bind
          (fun l => some (SystemProfilerData.mk l)))
    unfold getReq
    revert hrel
    generalize lookups topKey fs = L
    generalize lookups topKey fs' = L'
    intro hrel
    cases hrel with
    | nil => rfl
    | @cons a a' as as' hv htail =>
      cases htail with
      | nil =>
        have ha : ExtIfacesArr a a' := by simpa [vextTop] using hv
        cases ha with
        | arr hxs => simp [asArr, mapDeser_congr (fun _ _ h => deserInterfaces_ext h) hxs]
      | cons hv2 htail2 => rfl

/-- Claim C10: the structured parser tolerates unknown extra keys at
every level of the document — extending any object of a successfully
parsed document with unrecognized key/value pairs leaves the parse result
unchanged. -/
theorem C10_unknown_keys_ignored (j j' : Json) (ws : List Wifi)
    (hext : ExtDoc j j') (h : parse_systemprofiler j = some ws) :
    parse_systemprofiler j' = some ws := by
  have h1 : parse_systemprofiler j' = (deserTop j').bind
      (fun d => some (pushIfaces (allIfaces d) [])) := rfl
  have h2 : parse_systemprofiler j = (deserTop j).bind
      (fun d => some (pushIfaces (allIfaces d) [])) := rfl
  rw [h1, deserTop_ext hext, ← h2]
  exact h

/-- The network entry of `doc1` with an unrecognized key appended. -/
def pointX : Json :=
  .jobj
    [ (str "_name", .jstr (str "TEST-Wifi"))
    , (str "spairport_network_channel", .jstr (str "1"))
    , (str "spairport_security_mode",
        .jstr (str "spairport_security_mode_wpa2_personal"))
    , (str "spairport_signal_noise", .jstr (str "-67 / -90"))
    , (str "spairport_network_phymode", .jstr (str "802.11ac")) ]

/-- Document `doc1` with an unrecognized key/value pair added to every object:
the top-level object, the interface-list wrapper, and both interface
objects (using the real-world `spairport_wireless_mac_address` key the
code ignores), as well as the network entry. -/
def doc1x : Json :=
  .jobj
    [ (str "SPAirPortDataType", .jarr
        [ .jobj
            [ (str "spairport_airport_interfaces", .jarr
                [ .jobj
                    [ (str "spairport_airport_other_local_wireless_networks",
                        .jarr [pointX])
                    , (str "spairport_wireless_mac_address",
                        .jstr (str "00:11:22:33:44:55")) ]
                , .jobj
                    [ (str "spairport_wireless_mac_address",
                        .jstr (str "66:77:88:99:aa:bb")) ] ])
            , (str "extra_mid", .jbool true) ] ])
    , (str "extra_top", .jnum 1) ]

/-- Closed instance of the C10 theorem: `doc1x` extends `doc1` with an
unrecognized key in every object and parses to the same single record. -/
theorem C10_unknown_keys_ignored_witness :
    parse_systemprofiler doc1x = some doc1Wifis := by
  have hP : ExtPoint
      (pointJson "TEST-Wifi" "1" "spairport_security_mode_wpa2_personal"
        "-67 / -90") pointX :=
    .obj (.keep rfl (.keep rfl (.keep rfl (.keep rfl
      (.extra (by decide) .nil)))))
  have hA : ExtIface
      (.jobj
        [ (str "spairport_airport_other_local_wireless_networks",
            .jarr
              [ pointJson "TEST-Wifi" "1"
                  "spairport_security_mode_wpa2_personal" "-67 / -90" ]) ])
      (.jobj
        [ (str "spairport_airport_other_local_wireless_networks",
            .jarr [pointX])
        , (str "spairport_wireless_mac_address",
            .jstr (str "00:11:22:33:44:55")) ]) :=
    .obj (.keep (by simp [vextIface, ifaceNetsKey]; exact .arr (.cons hP .nil))
      (.extra (by decide) .nil))
  have hB : ExtIface (.jobj [])
      (.jobj
        [ (str "spairport_wireless_mac_address",
            .jstr (str "66:77:88:99:aa:bb")) ]) :=
    .obj (.extra (by decide) .nil)
  have hI : ExtIfaces
      (.jobj
        [ (str "spairport_airport_interfaces", .jarr
            [ .jobj
                [ (str "spairport_airport_other_local_wireless_networks",
                    .jarr
                      [ pointJson "TEST-Wifi" "1"
                          "spairport_security_mode_wpa2_personal"
                          "-67 / -90" ]) ]
            , .jobj [] ]) ])
      (.jobj
        [ (str "spairport_airport_interfaces", .jarr
            [ .jobj
                [ (str "spairport_airport_other_local_wireless_networks",
                    .jarr [pointX])
                , (str "spairport_wireless_mac_address",
                    .jstr (str "00:11:22:33:44:55")) ]
            , .jobj
                [ (str "spairport_wireless_mac_address",
                    .jstr (str "66:77:88:99:aa:bb")) ] ])
        , (str "extra_mid", .jbool true) ]) :=
    .obj (.keep (by simp [vextIfaces, ifsKey]; exact .arr (.cons hA (.cons hB .nil)))
      (.extra (by decide) .nil))
  have hext : ExtDoc doc1 doc1x :=
    .obj (.keep (by simp [vextTop, topKey]; exact .arr (.cons hI .nil))
      (.extra (by decide) .nil))
  exact C10_unknown_keys_ignored doc1 doc1x doc1Wifis hext rfl

end Wifiscanner
